import Mathlib

/-!
Verification development for the adversarial-training epoch controller of
AdvTransCNNs (main_adv.py).  The definitions below are a shallow embedding of
the configuration handling, augmentation-warmup curriculum, learning-rate
scaling, checkpoint policy and attacker wiring of main_adv.py; components that
live in files outside the visible source (utils.cosine_scheduler,
attacks/pgd_attack.py) are modelled from the specification, as marked in their
doc comments.
-/

namespace AdvTransCNNs

/-- Configuration of a PGDAttacker, mirroring the constructor arguments passed
in main_adv.py (lines 258-286): number of iterations, epsilon, step size,
image scale, probability of starting from the clean image, whether the shared
loss scaler was handed in (loss_scaler is not None), and the use_amp flag. -/
structure PGDConfig where
  num_iter : ℕ
  epsilon : ℚ
  step_size : ℚ
  image_scale : ℚ
  prob_start_from_clean : ℚ
  has_loss_scaler : Bool
  use_amp : Bool
  deriving DecidableEq, Repr

/-- Attacker installed on the model via set_attacker: either a NoOpAttacker or
a PGDAttacker (imported at main_adv.py line 40). -/
inductive Attacker where
  | noOp : Attacker
  | pgd : PGDConfig → Attacker
  deriving DecidableEq, Repr

/-- The slice of the argparse configuration (main_adv.py get_args_parser) that
the claims depend on.  output_dir_set stands for args.output_dir being a
non-empty string; has_val stands for data_loader_val being not None. -/
structure Args where
  batch_size : ℕ
  update_freq : ℕ
  epochs : ℕ
  warmup_epochs : ℕ
  warmup_steps : ℤ
  lr : ℚ
  warmup_lr : ℚ
  min_lr : ℚ
  scaled_lr : Bool
  weight_decay : ℚ
  weight_decay_end : Option ℚ
  use_augwarmup : Bool
  mixup : ℚ
  cutmix : ℚ
  mixup_prob : ℚ
  mixup_switch_prob : ℚ
  attack_iter : ℕ
  attack_epsilon : ℚ
  attack_step_size : ℚ
  prob_start_from_clean : ℚ
  image_scale : ℚ
  use_amp : Bool
  save_ckpt : Bool
  save_ckpt_freq : ℕ
  output_dir_set : Bool
  has_val : Bool
  dist_eval : Bool
  deriving DecidableEq, Repr

/-- Training attacker selection, main_adv.py lines 255-264: a NoOpAttacker when
attack_iter is 0, otherwise a PGDAttacker built from the attack arguments,
sharing the run's loss scaler and amp flag. -/
def mkTrainAttacker (a : Args) : Attacker :=
  if a.attack_iter = 0 then Attacker.noOp
  else Attacker.pgd
    ⟨a.attack_iter, a.attack_epsilon, a.attack_step_size, a.image_scale,
     a.prob_start_from_clean, true, a.use_amp⟩

/-- Validation attacker, main_adv.py lines 265-271: PGDAttacker(num_iter=5,
epsilon=4, step_size=1, image_scale=args.image_scale,
prob_start_from_clean=0.0, loss_scaler=None, use_amp=False). -/
def mkValAttacker (a : Args) : Attacker :=
  Attacker.pgd ⟨5, 4, 1, a.image_scale, 0, false, false⟩

/-- One row of the augmentation-warmup lookup: which of the nine pre-built
data loaders (data_loader_train_1 .. data_loader_train_9) is selected, and the
mixing parameters written into args (mixup_prob, cutmix, mixup_switch_prob). -/
structure CurriculumRow where
  loader : ℕ
  mixup_prob : ℚ
  cutmix : ℚ
  switch_prob : ℚ
  deriving DecidableEq, Repr

/-- The 10-epoch augmentation-warmup table of main_adv.py lines 661-715
(branch taken when args.warmup_epochs == 10). -/
def augwarmup10 : ℕ → CurriculumRow
  | 0 => ⟨1, 1/2, 0, 0⟩
  | 1 => ⟨1, 3/5, 0, 0⟩
  | 2 => ⟨2, 7/10, 0, 0⟩
  | 3 => ⟨3, 4/5, 0, 0⟩
  | 4 => ⟨4, 9/10, 0, 0⟩
  | 5 => ⟨5, 1, 0, 0⟩
  | 6 => ⟨6, 1, 1, 1/10⟩
  | 7 => ⟨7, 1, 1, 1/5⟩
  | 8 => ⟨8, 9/10, 1, 3/10⟩
  | 9 => ⟨9, 19/20, 1, 2/5⟩
  | _ + 10 => ⟨9, 1, 1, 1/2⟩

/-- The 5-epoch augmentation-warmup table of main_adv.py lines 722-751
(branch taken when args.warmup_epochs is not 10). -/
def augwarmup5 : ℕ → CurriculumRow
  | 0 => ⟨1, 1/2, 0, 0⟩
  | 1 => ⟨1, 7/10, 0, 0⟩
  | 2 => ⟨3, 9/10, 0, 0⟩
  | 3 => ⟨6, 1, 1, 1/10⟩
  | 4 => ⟨9, 9/10, 1, 3/10⟩
  | _ + 5 => ⟨9, 1, 1, 1/2⟩

/-- Per-epoch curriculum dispatch, main_adv.py line 659: the 10-epoch table is
used exactly when args.warmup_epochs == 10, the 5-epoch table otherwise. -/
def augwarmupSelect (warmup_epochs epoch : ℕ) : CurriculumRow :=
  if warmup_epochs = 10 then augwarmup10 epoch else augwarmup5 epoch

/-- The per-epoch in-place mutation of args performed by the curriculum block
(main_adv.py lines 658-755): when use_augwarmup is set, the selected row is
written into args.mixup_prob, args.cutmix and args.mixup_switch_prob; nothing
else in args is touched, and nothing at all when use_augwarmup is unset. -/
def applyCurriculum (a : Args) (epoch : ℕ) : Args :=
  if a.use_augwarmup then
    let r := augwarmupSelect a.warmup_epochs epoch
    { a with mixup_prob := r.mixup_prob, cutmix := r.cutmix,
             mixup_switch_prob := r.switch_prob }
  else a

/-- Total effective batch size, main_adv.py line 546:
args.batch_size * args.update_freq * world size. -/
def totalBatchSize (a : Args) (world_size : ℕ) : ℕ :=
  a.batch_size * a.update_freq * world_size

/-- Linear learning-rate scaling, main_adv.py lines 556-563: when
args.scaled_lr is set, warmup_lr, lr and min_lr are each multiplied by
total_batch_size / 1024 (once, before the schedules are built); when the flag
is unset the rates are left untouched. -/
def scaleLrs (a : Args) (total : ℚ) : Args :=
  if a.scaled_lr then
    { a with warmup_lr := a.warmup_lr * total / 1024,
             lr := a.lr * total / 1024,
             min_lr := a.min_lr * total / 1024 }
  else a

/-- Modelled from the spec: utils.cosine_scheduler (utils.py is not part of
the visible source; only its call sites at main_adv.py lines 596-604 are).
Spec 4.3: total_steps = epochs * steps_per_epoch; warmup_iters is warmup_steps
when positive, else warmup_epochs * steps_per_epoch; entries below warmup_iters
interpolate linearly from start_warmup_value to base_value, later entries
follow a cosine decay from base_value to final_value over the remaining
total_steps - warmup_iters steps; the output length is exactly total_steps,
and when warmup_iters is at least total_steps the whole schedule is warmup. -/
noncomputable def cosine_scheduler (base_value final_value : ℝ)
    (epochs steps_per_epoch warmup_epochs : ℕ) (start_warmup_value : ℝ)
    (warmup_steps : ℤ) : List ℝ :=
  let total := epochs * steps_per_epoch
  let warmup_iters : ℕ :=
    if 0 < warmup_steps then warmup_steps.toNat else warmup_epochs * steps_per_epoch
  (List.range total).map fun i =>
    if i < warmup_iters then
      start_warmup_value +
        (base_value - start_warmup_value) * (i : ℝ) / ((warmup_iters : ℝ) - 1)
    else
      final_value + (1 / 2) * (base_value - final_value) *
        (1 + Real.cos (Real.pi * ((i : ℝ) - (warmup_iters : ℝ)) /
          ((total : ℝ) - (warmup_iters : ℝ))))

/-- Learning-rate schedule built once at run start, main_adv.py lines 596-599:
the (possibly linearly rescaled) lr, min_lr and warmup_lr are fed to
cosine_scheduler together with args.epochs, args.warmup_epochs and
args.warmup_steps. -/
noncomputable def lr_schedule_values (a : Args) (world_size steps_per_epoch : ℕ) :
    List ℝ :=
  let a2 := scaleLrs a ((totalBatchSize a world_size : ℕ) : ℚ)
  cosine_scheduler (a2.lr : ℝ) (a2.min_lr : ℝ) a.epochs steps_per_epoch
    a.warmup_epochs (a2.warmup_lr : ℝ) a.warmup_steps

/-- Weight-decay schedule built once at run start, main_adv.py lines 601-604,
with weight_decay_end defaulting to weight_decay and the python defaults
warmup_epochs=0, start_warmup_value=0, warmup_steps=-1 of cosine_scheduler. -/
noncomputable def wd_schedule_values (a : Args) (steps_per_epoch : ℕ) : List ℝ :=
  cosine_scheduler (a.weight_decay : ℝ)
    ((a.weight_decay_end.getD a.weight_decay : ℚ) : ℝ)
    a.epochs steps_per_epoch 0 0 (-1)

/-- Checkpoint-epoch predicate, main_adv.py line 778: save at every
save_ckpt_freq epochs, at the last epoch, and at the first epoch. -/
def epoch_to_save (epoch save_ckpt_freq epochs : ℕ) : Bool :=
  (epoch + 1) % save_ckpt_freq == 0 || epoch + 1 == epochs || epoch + 1 == 1

/-- The two sampler shapes that main_adv.py lines 350-358 can build for the
validation set. -/
inductive Sampler where
  | distributed (num_replicas rank : ℕ) (shuffle : Bool) : Sampler
  | sequential : Sampler
  deriving DecidableEq, Repr

/-- Validation sampler setup, main_adv.py lines 350-358: under dist_eval a
validation set whose length is not divisible by the process count only makes
the run print a warning (the Bool component) before the DistributedSampler is
built; no exception is ever raised, which the Except return type records. -/
def valSamplerSetup (dist_eval : Bool) (val_len num_tasks rank : ℕ) :
    Except String (Bool × Sampler) :=
  if dist_eval then
    Except.ok (decide (val_len % num_tasks ≠ 0),
               Sampler.distributed num_tasks rank false)
  else
    Except.ok (false, Sampler.sequential)

/-- Accuracy/loss statistics returned by an evaluate call. -/
structure EvalStats where
  acc1 : ℚ
  acc5 : ℚ
  loss : ℚ
  deriving DecidableEq, Repr

/-- Oracle for the data-dependent results of the two evaluate calls of one
epoch (clean eval at line 787, robust eval at line 793). -/
structure EpochOracle where
  cleanStats : EvalStats
  robustStats : EvalStats
  deriving DecidableEq, Repr

/-- Mutable state threaded through the epoch loop: the attacker currently
installed on the model and max_accuracy (main_adv.py line 649). -/
structure LoopState where
  modelAttacker : Attacker
  maxAccuracy : ℚ
  deriving DecidableEq, Repr

/-- Observable events of one epoch-loop iteration: the attacker installed when
train_one_epoch is entered, whether the latest slot was written, the attackers
installed for the two evaluate calls, the statistics that went to the log, and
whether the best slot was written. -/
structure EpochTrace where
  attackerAtTrainEntry : Attacker
  latestSaved : Bool
  attackerAtCleanEval : Option Attacker
  attackerAtRobustEval : Option Attacker
  loggedClean : Option EvalStats
  loggedRobust : Option EvalStats
  bestSaved : Bool
  deriving DecidableEq, Repr

/-- One iteration of the epoch loop from the attacker installation to the
best-checkpoint gate, main_adv.py lines 767-804: set_attacker(train_attacker)
(768), train_one_epoch (769), epoch_to_save and the latest-slot save guarded
by output_dir and save_ckpt (778-783), then, when a validation loader exists
and epoch_to_save holds: clean eval under NoOpAttacker (786-787), robust eval
under val_attacker (792-793), and the max_accuracy / best-slot update keyed on
the robust top-1 accuracy only (798-803). -/
def epochStep (a : Args) (epoch : ℕ) (o : EpochOracle) (s : LoopState) :
    EpochTrace × LoopState :=
  let trainAtt := mkTrainAttacker a
  let s1 : LoopState := { s with modelAttacker := trainAtt }
  let toSave := epoch_to_save epoch a.save_ckpt_freq a.epochs
  let latest := a.output_dir_set && a.save_ckpt && toSave
  if a.has_val && toSave then
    let s2 : LoopState := { s1 with modelAttacker := Attacker.noOp }
    let clean := o.cleanStats
    let s3 : LoopState := { s2 with modelAttacker := mkValAttacker a }
    let robust := o.robustStats
    if s3.maxAccuracy < robust.acc1 then
      (⟨trainAtt, latest, some Attacker.noOp, some (mkValAttacker a),
        some clean, some robust, a.output_dir_set && a.save_ckpt⟩,
       { s3 with maxAccuracy := robust.acc1 })
    else
      (⟨trainAtt, latest, some Attacker.noOp, some (mkValAttacker a),
        some clean, some robust, false⟩, s3)
  else
    (⟨trainAtt, latest, none, none, none, none, false⟩, s1)

/-- Clamp a rational to a closed interval. -/
def clampQ (lo hi x : ℚ) : ℚ := max lo (min hi x)

/-- Sign of a rational, as used by the PGD sign-gradient step. -/
def signQ (x : ℚ) : ℚ := if 0 < x then 1 else if x < 0 then -1 else 0

/-- Randomness consumed by one PGD attack: the draw against
prob_start_from_clean and the uniform initial noise. -/
structure PGDRand where
  startFromClean : Bool
  initNoise : List ℚ
  deriving DecidableEq, Repr

/-- Modelled from the spec: NoOpAttacker.attack (attacks/pgd_attack.py is not
part of the visible source).  Spec 4.1: NoOp returns the images unchanged. -/
def noOpAttack (images : List ℚ) : List ℚ := images

/-- Modelled from the spec: one PGD iteration (spec 4.1 step 2): the model's
pixel gradient is queried at the current iterate, each pixel moves by
step_size times the gradient sign, the cumulative perturbation is clamped to
the epsilon ball around the original image, and the result is clamped to the
valid image range. -/
def pgdStep (cfg : PGDConfig) (model : List ℚ → List ℕ → List ℚ)
    (labels : List ℕ) (orig x : List ℚ) : List ℚ :=
  let g := model x labels
  (orig.zip (x.zip g)).map fun p =>
    clampQ (-cfg.image_scale) cfg.image_scale
      (clampQ (p.1 - cfg.epsilon) (p.1 + cfg.epsilon)
        (p.2.1 + cfg.step_size * signQ p.2.2))

/-- Modelled from the spec: the PGD starting point (spec 4.1 step 1): the
clean image when the clean-start draw fires, otherwise the image plus uniform
noise within the epsilon ball. -/
def pgdInit (cfg : PGDConfig) (r : PGDRand) (images : List ℚ) : List ℚ :=
  if r.startFromClean then images
  else (images.zip r.initNoise).map fun p =>
    p.1 + clampQ (-cfg.epsilon) cfg.epsilon p.2

/-- Modelled from the spec: PGDAttacker.attack (attacks/pgd_attack.py is not
part of the visible source).  Spec 4.1 states that num_iter == 0 behaves as
NoOp; otherwise the attack starts from pgdInit and applies num_iter pgdStep
iterations.  The model is represented by its pixel-gradient oracle. -/
def pgdAttack (cfg : PGDConfig) (r : PGDRand)
    (model : List ℚ → List ℕ → List ℚ) (images : List ℚ) (labels : List ℕ) :
    List ℚ :=
  if cfg.num_iter = 0 then images
  else Nat.iterate (pgdStep cfg model labels images) cfg.num_iter
    (pgdInit cfg r images)

/-- A sample configuration used by the concrete witnesses: the argparse
defaults of main_adv.py with output_dir set and a validation loader present. -/
def args0 : Args :=
  ⟨64, 1, 300, 20, -1, 1/1000, 0, 1/4000000, true, 1/20, none, true,
   4/5, 1, 1, 1/2, 0, 1, 1, 0, 2, false, true, 1, true, true, true⟩

/-- A second sample configuration, differing from args0 only in the training
attack parameters and the amp flag. -/
def args1 : Args :=
  { args0 with attack_iter := 7, attack_epsilon := 8, attack_step_size := 2,
               use_amp := true }

/-- A sample configuration with linear lr scaling disabled. -/
def argsNoScale : Args := { args0 with scaled_lr := false }

/-- Sample evaluation oracle used by the concrete witnesses. -/
def oracle0 : EpochOracle := ⟨⟨60, 80, 1⟩, ⟨50, 70, 2⟩⟩

/-- Sample loop state used by the concrete witnesses. -/
def state0 : LoopState := ⟨Attacker.noOp, 10⟩

/-- Claim C1: for the 10-epoch curriculum, epoch 0 selects mixup_prob 0.5,
cutmix 0, switch_prob 0; epoch 9 selects mixup_prob 0.95, cutmix 1,
switch_prob 0.4; and every epoch of index at least 10 selects the same row as
epoch 10, namely data source 9 with mixup_prob 1, cutmix 1, switch_prob 0.5,
so the ramp ends and the values are held constant. -/
theorem augwarmup10_endpoints :
    augwarmup10 0 = ⟨1, 1/2, 0, 0⟩
    ∧ augwarmup10 9 = ⟨9, 19/20, 1, 2/5⟩
    ∧ augwarmup10 10 = ⟨9, 1, 1, 1/2⟩
    ∧ ∀ e, 10 ≤ e → augwarmup10 e = augwarmup10 10 := by
  refine ⟨rfl, rfl, rfl, ?_⟩
  intro e he
  obtain ⟨k, rfl⟩ : ∃ k, e = k + 10 := ⟨e - 10, by omega⟩
  rfl

/-- Witness for claim C1, instantiated at epoch 15. -/
theorem augwarmup10_endpoints_witness :
    (10 ≤ 15) ∧ augwarmup10 15 = augwarmup10 10 :=
  ⟨by decide, augwarmup10_endpoints.2.2.2 15 (by decide)⟩

/-- Claim C5: the 10-epoch table is taken exactly when warmup_epochs is 10 and
the 5-epoch table for every other value; the 5-epoch table visits only data
sources 1, 3, 6 and 9 (epochs 0 and 1 use source 1, epoch 2 source 3, epoch 3
source 6, every epoch from 4 on source 9), while the 10-epoch table visits all
nine sources. -/
theorem augwarmup_dispatch_levels :
    (∀ e, augwarmupSelect 10 e = augwarmup10 e)
    ∧ (∀ w e, w ≠ 10 → augwarmupSelect w e = augwarmup5 e)
    ∧ (augwarmup5 0).loader = 1 ∧ (augwarmup5 1).loader = 1
    ∧ (augwarmup5 2).loader = 3 ∧ (augwarmup5 3).loader = 6
    ∧ (∀ e, 4 ≤ e → (augwarmup5 e).loader = 9)
    ∧ (∀ e, (augwarmup5 e).loader = 1 ∨ (augwarmup5 e).loader = 3
        ∨ (augwarmup5 e).loader = 6 ∨ (augwarmup5 e).loader = 9)
    ∧ (∀ k, 1 ≤ k → k ≤ 9 → ∃ e, (augwarmup10 e).loader = k) := by
  refine ⟨fun e => by simp [augwarmupSelect],
          fun w e hw => by simp [augwarmupSelect, hw],
          rfl, rfl, rfl, rfl, ?_, ?_, ?_⟩
  · intro e he
    obtain ⟨k, rfl⟩ : ∃ k, e = k + 4 := ⟨e - 4, by omega⟩
    rcases k with _ | k
    · rfl
    · rfl
  · intro e
    rcases e with _ | _ | _ | _ | _ | k
    · exact Or.inl rfl
    · exact Or.inl rfl
    · exact Or.inr (Or.inl rfl)
    · exact Or.inr (Or.inr (Or.inl rfl))
    · exact Or.inr (Or.inr (Or.inr rfl))
    · exact Or.inr (Or.inr (Or.inr rfl))
  · intro k h1 h9
    interval_cases k
    · exact ⟨0, rfl⟩
    · exact ⟨2, rfl⟩
    · exact ⟨3, rfl⟩
    · exact ⟨4, rfl⟩
    · exact ⟨5, rfl⟩
    · exact ⟨6, rfl⟩
    · exact ⟨7, rfl⟩
    · exact ⟨8, rfl⟩
    · exact ⟨9, rfl⟩

/-- Witness for claim C5: the 5-epoch table at warmup_epochs 20 and epoch 7,
and the existence of an epoch using data source 2 in the 10-epoch table. -/
theorem augwarmup_dispatch_levels_witness :
    augwarmupSelect 20 3 = augwarmup5 3
    ∧ ((4 : ℕ) ≤ 7 ∧ (augwarmup5 7).loader = 9)
    ∧ ((1 : ℕ) ≤ 2 ∧ (2 : ℕ) ≤ 9 ∧ ∃ e, (augwarmup10 e).loader = 2) := by
  obtain ⟨h1, h2, _, _, _, _, h7, _, h9⟩ := augwarmup_dispatch_levels
  exact ⟨h2 20 3 (by decide), ⟨by decide, h7 7 (by decide)⟩,
         by decide, by decide, h9 2 (by decide) (by decide)⟩

/-- Claim C4: a PGD attacker with num_iter = 0 is observationally equivalent
to the NoOp attacker: for every model gradient oracle, randomness, image batch
and label batch it returns the images unchanged. -/
theorem pgd_zero_iter_noop (cfg : PGDConfig) (r : PGDRand)
    (model : List ℚ → List ℕ → List ℚ) (images : List ℚ) (labels : List ℕ)
    (h : cfg.num_iter = 0) :
    pgdAttack cfg r model images labels = noOpAttack images := by
  simp [pgdAttack, noOpAttack, h]

/-- Witness for claim C4 at a concrete zero-iteration configuration with a
noise start and a nonzero gradient oracle. -/
theorem pgd_zero_iter_noop_witness :
    pgdAttack ⟨0, 4, 1, 2, 0, false, false⟩ ⟨false, [1, -1]⟩
      (fun x _ => x) [1/2, -1/2] [3] = noOpAttack [1/2, -1/2] :=
  pgd_zero_iter_noop _ _ _ _ _ rfl

/-- Claim C7: with saving enabled and an output directory set, the latest slot
is written at an epoch boundary exactly when the completed epoch is epoch 0,
or epoch + 1 is a multiple of save_ckpt_freq, or epoch + 1 equals the total
epoch count. -/
theorem latest_save_characterization (a : Args) (epoch : ℕ) (o : EpochOracle)
    (s : LoopState) (ho : a.output_dir_set = true) (hs : a.save_ckpt = true) :
    ((epochStep a epoch o s).1.latestSaved = true)
      ↔ (epoch = 0 ∨ (epoch + 1) % a.save_ckpt_freq = 0
          ∨ epoch + 1 = a.epochs) := by
  have hls : (epochStep a epoch o s).1.latestSaved
      = (a.output_dir_set && a.save_ckpt
          && epoch_to_save epoch a.save_ckpt_freq a.epochs) := by
    unfold epochStep
    dsimp only
    split
    · split
      · rfl
      · rfl
    · rfl
  rw [hls, ho, hs]
  simp only [Bool.true_and, epoch_to_save, Bool.or_eq_true, beq_iff_eq]
  omega

/-- Witness for claim C7: under the sample configuration, epoch 0 triggers a
latest-slot save. -/
theorem latest_save_characterization_witness :
    (epochStep args0 0 oracle0 state0).1.latestSaved = true :=
  (latest_save_characterization args0 0 oracle0 state0 rfl rfl).mpr
    (Or.inl rfl)

/-- Claim C8: under distributed evaluation, a validation set length not
divisible by the process count makes the setup emit the warning and still
build the distributed sampler; the setup never returns an error, for any
input. -/
theorem dist_eval_warning_nonfatal (val_len num_tasks rank : ℕ)
    (h : val_len % num_tasks ≠ 0) :
    valSamplerSetup true val_len num_tasks rank
      = Except.ok (true, Sampler.distributed num_tasks rank false)
    ∧ ∀ d vl nt rk, ∃ res, valSamplerSetup d vl nt rk = Except.ok res := by
  constructor
  · simp [valSamplerSetup, h]
  · intro d vl nt rk
    cases d
    · exact ⟨(false, Sampler.sequential), rfl⟩
    · exact ⟨(decide (vl % nt ≠ 0), Sampler.distributed nt rk false), rfl⟩

/-- Witness for claim C8 with 50000 validation samples over 7 processes. -/
theorem dist_eval_warning_nonfatal_witness :
    valSamplerSetup true 50000 7 0
      = Except.ok (true, Sampler.distributed 7 0 false) :=
  (dist_eval_warning_nonfatal 50000 7 0 (by decide)).1

/-- Claim C2: at an epoch boundary where evaluation runs (validation loader
present and epoch_to_save true) and with saving enabled, the best slot is
written exactly when the robust top-1 accuracy strictly exceeds the running
maximum; the running maximum becomes the max of the old value and the robust
accuracy; and the clean statistics, which are only logged, influence neither
the best-slot write nor the new maximum. -/
theorem best_checkpoint_gate (a : Args) (epoch : ℕ) (o : EpochOracle)
    (s : LoopState) (hv : a.has_val = true)
    (he : epoch_to_save epoch a.save_ckpt_freq a.epochs = true)
    (ho : a.output_dir_set = true) (hs : a.save_ckpt = true) :
    ((epochStep a epoch o s).1.bestSaved = true
        ↔ s.maxAccuracy < o.robustStats.acc1)
    ∧ (epochStep a epoch o s).2.maxAccuracy
        = max s.maxAccuracy o.robustStats.acc1
    ∧ (∀ c : EvalStats,
        (epochStep a epoch ⟨c, o.robustStats⟩ s).1.bestSaved
            = (epochStep a epoch o s).1.bestSaved
        ∧ (epochStep a epoch ⟨c, o.robustStats⟩ s).2.maxAccuracy
            = (epochStep a epoch o s).2.maxAccuracy)
    ∧ (epochStep a epoch o s).1.loggedClean = some o.cleanStats := by
  by_cases hlt : s.maxAccuracy < o.robustStats.acc1
  · simp [epochStep, hv, he, ho, hs, hlt, max_eq_right (le_of_lt hlt)]
  · simp [epochStep, hv, he, ho, hs, hlt, max_eq_left (not_lt.mp hlt)]

/-- Witness for claim C2: with the sample configuration at epoch 0, the robust
accuracy 50 exceeds the running maximum 10, so the best slot is written and
the maximum becomes 50. -/
theorem best_checkpoint_gate_witness :
    (epochStep args0 0 oracle0 state0).1.bestSaved = true
    ∧ (epochStep args0 0 oracle0 state0).2.maxAccuracy = 50 := by
  have h := best_checkpoint_gate args0 0 oracle0 state0 rfl (by decide) rfl rfl
  refine ⟨h.1.mpr (by norm_num [state0, oracle0]), ?_⟩
  rw [h.2.1]
  norm_num [state0, oracle0]

/-- Claim C3: the schedule produced by the cosine schedule generator has
length exactly epochs * steps_per_epoch for every input, and so do the
learning-rate and weight-decay schedules built at run start. -/
theorem cosine_scheduler_length (base final start_warmup : ℝ)
    (epochs steps_per_epoch warmup_epochs : ℕ) (warmup_steps : ℤ) (a : Args)
    (world_size sp : ℕ) :
    (cosine_scheduler base final epochs steps_per_epoch warmup_epochs
        start_warmup warmup_steps).length = epochs * steps_per_epoch
    ∧ (lr_schedule_values a world_size sp).length = a.epochs * sp
    ∧ (wd_schedule_values a sp).length = a.epochs * sp := by
  refine ⟨?_, ?_, ?_⟩ <;>
    simp [cosine_scheduler, lr_schedule_values, wd_schedule_values]

/-- Claim C6 counterexample: with the scaled_lr flag unset and a total batch
size of 2048, which differs from the reference 1024, the learning rates are
not rescaled, contradicting the claim that a differing total batch size always
triggers the linear rescale. -/
theorem scaled_lr_counterexample :
    totalBatchSize argsNoScale 32 = 2048
    ∧ (2048 : ℕ) ≠ 1024
    ∧ scaleLrs argsNoScale ((totalBatchSize argsNoScale 32 : ℕ) : ℚ)
        = argsNoScale
    ∧ argsNoScale.lr ≠ argsNoScale.lr * 2048 / 1024 := by
  refine ⟨rfl, by decide, ?_, by norm_num [argsNoScale, args0]⟩
  simp [scaleLrs, argsNoScale, args0]

/-- Claim C6 as amended: when the scaled_lr flag is set (the default), the
base, warmup and minimum learning rates are each rescaled by
total_batch_size / 1024 once at run start, before being fed to the schedule
generator (lr_schedule_values applies scaleLrs to its inputs by definition);
the per-epoch curriculum step never changes any of them.  When the flag is
unset no rescaling happens even if the total batch size differs from 1024. -/
theorem scaled_lr_rescale (a : Args) (world_size : ℕ)
    (h : a.scaled_lr = true) :
    (scaleLrs a ((totalBatchSize a world_size : ℕ) : ℚ)).lr
        = a.lr * ((totalBatchSize a world_size : ℕ) : ℚ) / 1024
    ∧ (scaleLrs a ((totalBatchSize a world_size : ℕ) : ℚ)).warmup_lr
        = a.warmup_lr * ((totalBatchSize a world_size : ℕ) : ℚ) / 1024
    ∧ (scaleLrs a ((totalBatchSize a world_size : ℕ) : ℚ)).min_lr
        = a.min_lr * ((totalBatchSize a world_size : ℕ) : ℚ) / 1024
    ∧ (∀ e, (applyCurriculum a e).lr = a.lr
        ∧ (applyCurriculum a e).warmup_lr = a.warmup_lr
        ∧ (applyCurriculum a e).min_lr = a.min_lr) := by
  refine ⟨by simp [scaleLrs, h], by simp [scaleLrs, h], by simp [scaleLrs, h],
          ?_⟩
  intro e
  unfold applyCurriculum
  split
  · exact ⟨rfl, rfl, rfl⟩
  · exact ⟨rfl, rfl, rfl⟩

/-- Witness for the amended claim C6: the sample configuration with world size
32 has total batch 2048 and its base lr is doubled, while the curriculum step
at epoch 3 leaves it unchanged. -/
theorem scaled_lr_rescale_witness :
    (scaleLrs args0 ((totalBatchSize args0 32 : ℕ) : ℚ)).lr
        = args0.lr * ((totalBatchSize args0 32 : ℕ) : ℚ) / 1024
    ∧ (applyCurriculum args0 3).lr = args0.lr := by
  have h := scaled_lr_rescale args0 32 rfl
  exact ⟨h.1, (h.2.2.2 3).1⟩

/-- Claim C9: at every epoch boundary where evaluation runs, the attacker
installed for the robust evaluation that feeds max_accuracy is the fixed
validation attacker: full-precision PGD with num_iter 5, epsilon 4, step size
1, prob_start_from_clean 0, no shared loss scaler and amp disabled; it depends
on the configuration only through image_scale, so any two configurations with
the same image_scale yield the same validation attacker regardless of
attack_iter, attack_epsilon, attack_step_size and use_amp. -/
theorem val_attacker_fixed (a a2 : Args) (epoch : ℕ) (o : EpochOracle)
    (s : LoopState) (hv : a.has_val = true)
    (he : epoch_to_save epoch a.save_ckpt_freq a.epochs = true) :
    (epochStep a epoch o s).1.attackerAtRobustEval = some (mkValAttacker a)
    ∧ mkValAttacker a = Attacker.pgd ⟨5, 4, 1, a.image_scale, 0, false, false⟩
    ∧ (a.image_scale = a2.image_scale → mkValAttacker a = mkValAttacker a2) := by
  refine ⟨?_, rfl, fun hsc => by simp [mkValAttacker, hsc]⟩
  by_cases hlt : s.maxAccuracy < o.robustStats.acc1 <;>
    simp [epochStep, hv, he, hlt]

/-- Witness for claim C9: args0 and args1 differ in attack_iter,
attack_epsilon, attack_step_size and use_amp but share image_scale, and their
validation attackers coincide; the robust evaluation of epoch 0 under args0
uses exactly that attacker. -/
theorem val_attacker_fixed_witness :
    (epochStep args0 0 oracle0 state0).1.attackerAtRobustEval
        = some (mkValAttacker args0)
    ∧ mkValAttacker args0 = mkValAttacker args1 := by
  have h := val_attacker_fixed args0 args1 0 oracle0 state0 rfl (by decide)
  exact ⟨h.1, h.2.2 rfl⟩

/-- Claim C10: on entry to train_one_epoch the attacker installed on the model
is the configured training attacker, for every epoch and every prior loop
state, in particular after a previous epoch left the NoOp or validation
attacker installed. -/
theorem attacker_reset_before_train (a : Args) (epoch : ℕ) (o : EpochOracle)
    (s : LoopState) :
    (epochStep a epoch o s).1.attackerAtTrainEntry = mkTrainAttacker a := by
  unfold epochStep
  dsimp only
  split
  · split
    · rfl
    · rfl
  · rfl

end AdvTransCNNs
